import Mathlib

/-!
Verification of the reddit_listener repository (src/main.py,
src/modules/reddit_listener.py, src/modules/gui.py) against its
natural-language specification.

The embedding below translates the Python source into Lean:
pure control flow becomes Lean functions, the mutable `backoff_seconds`
variable becomes explicit state passing, exceptions become an inductive
error type dispatched in the order of the `except` clauses, and the
worker thread of gui.py becomes a function from its inputs (the result of
client initialization and the trace of generator pulls) to the list of
messages it puts on the GUI queue.
-/

namespace RedditListener

/-! ### Credentials and initialization (src/modules/reddit_listener.py lines 26-73) -/

/-- The five environment variables read by the source; `os.getenv` returns
`None` for an unset variable, modelled by `Option String`. -/
structure Credentials where
  client_id : Option String
  client_secret : Option String
  user_agent : Option String
  username : Option String
  password : Option String

/-- Source lines 40-46: the list `required_env_vars`.  The source defines this
list but never consults it. -/
def required_env_vars : List String :=
  ["REDDIT_CLIENT_ID", "REDDIT_CLIENT_SECRET", "REDDIT_USER_AGENT",
   "REDDIT_USERNAME", "REDDIT_PASSWORD"]

/-- Observable result of executing the verification statement
`reddit.user.me()` (source line 61), supplied as an oracle: the call
returns a value (`none` for a read-only client, which issues no request)
or raises one of the prawcore exceptions caught at lines 63-71. -/
inductive AuthNet where
| ok (me : Option String)
| prawFail (e : String)

/-- The error kinds observable from `initialize_reddit`: the
MissingRequiredAttributeException that the PRAW constructor raises for an
unset required setting, the ValueError its docstring documents for
missing environment variables (source lines 31-32) — which no code path
produces — and the RuntimeError raised at line 72 for failed
authentication. -/
inductive InitErr where
| missingAttr (field : String)
| valueError (field : String)
| runtimeError (msg : String)

/-- Result of `initialize_reddit`: the returned client (modelled by the
credentials it was built from) or the raised error, together with the
number of times execution reached the verification statement
`reddit.user.me()` at line 61.  That statement is the only one in the
function that can issue Reddit API traffic — the PRAW constructor only
validates its configuration locally — so a run with `verifyCalls = 0`
performed no network call. -/
structure InitResult where
  outcome : Except InitErr Credentials
  verifyCalls : Nat

/-- Embedding of `initialize_reddit` (source lines 26-73).  The source
performs NO check of `required_env_vars` (the list is dead code): it
passes whatever `os.getenv` returned (possibly `None`) to the
`praw.Reddit` constructor (lines 51-57).  The constructor itself
validates, without network traffic, that `client_id` and `user_agent`
are set, raising MissingRequiredAttributeException naming the first
missing one; an explicitly-None `client_secret` is accepted and
`username`/`password` are optional.  Only a client that passed
construction reaches the verification call `reddit.user.me()` at
line 61, whose outcome the oracle supplies; a raised prawcore exception
becomes a RuntimeError (line 72).  No path raises ValueError. -/
def init_reddit (env : Credentials) (net : AuthNet) : InitResult :=
  if env.client_id = none then
    { outcome := Except.error (InitErr.missingAttr "client_id"),
      verifyCalls := 0 }
  else if env.user_agent = none then
    { outcome := Except.error (InitErr.missingAttr "user_agent"),
      verifyCalls := 0 }
  else
    match net with
    | AuthNet.ok _ => { outcome := Except.ok env, verifyCalls := 1 }
    | AuthNet.prawFail e =>
        { outcome := Except.error
            (InitErr.runtimeError
              ("Failed to verify Reddit authentication: " ++ e)),
          verifyCalls := 1 }

/-- Modelled from the spec: the missing-field validation promised by the
spec (sections 4.3, 6, 7) and by the docstring of `initialize_reddit`
(raise ValueError naming the missing variable, before any network
activity).  No such check exists in the source; this definition is the
intended behavior used to exhibit the divergence. -/
def spec_validate (env : Credentials) : Option String :=
  if env.client_id = none then some "REDDIT_CLIENT_ID"
  else if env.client_secret = none then some "REDDIT_CLIENT_SECRET"
  else if env.user_agent = none then some "REDDIT_USER_AGENT"
  else if env.username = none then some "REDDIT_USERNAME"
  else if env.password = none then some "REDDIT_PASSWORD"
  else none

/-! ### Exception classification and the backoff handler
(src/modules/reddit_listener.py lines 122-147) -/

/-- The exceptions that can reach the `except` clauses of
`stream_reddit_activity`; `other` stands for any remaining `Exception`
subclass caught by the final clause. -/
inductive StreamErr where
| keyboardInterrupt
| forbidden
| notFound
| oauthException
| invalidToken
| requestException
| responseException
| serverError
| other (msg : String)

/-- The five failure classes of the spec taxonomy:
cancellation, access, authorization, transient network, unknown. -/
inductive FailureClass where
| cancel
| access
| auth
| transient
| unknown

/-- Classification induced by the order of the `except` clauses
(source lines 122-144): KeyboardInterrupt, then Forbidden/NotFound, then
OAuthException/InvalidToken, then RequestException/ResponseException/
ServerError, then the generic `Exception` clause. -/
def classify : StreamErr → FailureClass
| StreamErr.keyboardInterrupt => FailureClass.cancel
| StreamErr.forbidden => FailureClass.access
| StreamErr.notFound => FailureClass.access
| StreamErr.oauthException => FailureClass.auth
| StreamErr.invalidToken => FailureClass.auth
| StreamErr.requestException => FailureClass.transient
| StreamErr.responseException => FailureClass.transient
| StreamErr.serverError => FailureClass.transient
| StreamErr.other _ => FailureClass.unknown

/-- Source line 94: initial value of `backoff_seconds` (also the value it
is reset to at line 105). -/
def min_backoff_seconds : Nat := 5

/-- Source line 95: `max_backoff_seconds`. -/
def max_backoff_seconds : Nat := 120

/-- One execution of the exception handlers (source lines 122-147) in
state `backoff_seconds`.  `none` means the exception propagates and the
generator ends; `some (s, b)` means the handler sleeps `s` seconds and
leaves `backoff_seconds = b`, after which the outer loop reconnects.
For the transient clause the source computes
`sleep_for = min(120, int(backoff_seconds * 1.5))` and then
`backoff_seconds = min(120, sleep_for * 2)`; for the naturals reachable
here `int(b * 1.5)` is exactly `3 * b / 2` in truncated division.
The final `Exception` clause sleeps a fixed 15 seconds and leaves
`backoff_seconds` untouched. -/
def handlerStep (e : StreamErr) (backoff_seconds : Nat) : Option (Nat × Nat) :=
  match classify e with
  | FailureClass.cancel => none
  | FailureClass.access => none
  | FailureClass.auth => none
  | FailureClass.transient =>
      let sleep_for := min max_backoff_seconds (3 * backoff_seconds / 2)
      some (sleep_for, min max_backoff_seconds (sleep_for * 2))
  | FailureClass.unknown => some (15, backoff_seconds)

/-- The sequence of handler sleeps produced by the outer `while True`
loop (source lines 96-147), given the exceptions that successively end
the inner streaming loop.  Creating the two streams (lines 101-102) only
instantiates lazy PRAW generators and cannot raise, so every iteration
of the outer loop reaches the reset `backoff_seconds = 5` at line 105
before any statement that can raise; the handler therefore always runs
on the reset state, and the grown value stored at line 143 is
overwritten before it is ever read.  The first parameter carries the
value of `backoff_seconds` entering the iteration, as in the source.
A propagating exception ends the run. -/
def stream_run : Nat → List StreamErr → List Nat
| _, [] => []
| _, e :: rest =>
    match handlerStep e min_backoff_seconds with
    | none => []
    | some (s, b2) => s :: stream_run b2 rest

/-- Modelled from the spec (section 8): the sleep recurrence the spec
claims, `d 0 = 5`, `d (i+1) = min 120 (floor (d i * 1.5))`. -/
def specDelay : Nat → Nat
| 0 => 5
| i + 1 => min 120 (3 * specDelay i / 2)

/-- Modelled from the spec (section 8): the first `n` sleeps of the
claimed recurrence. -/
def specSleepSeq (n : Nat) : List Nat := (List.range n).map specDelay

/-! ### The stream merger (src/modules/reddit_listener.py lines 108-120) -/

/-- A pull-based stream with `pause_after=0` is a list of outputs, where
`none` is the empty-poll sentinel.  `drain` is one `for` loop over such a
stream (source lines 109-112 and 114-117): it collects items until the
first `none` (the `break`) and returns the collected items together with
the rest of the stream. -/
def drain {α : Type} : List (Option α) → List α × List (Option α)
| [] => ([], [])
| none :: rest => ([], rest)
| some a :: rest =>
    let p := drain rest
    (a :: p.1, p.2)

/-- `n` iterations of the inner `while True` merge loop (source lines
108-120): drain the submissions stream, then the comments stream, yield
the drained items in order, repeat. -/
def mergeSteps {α : Type} : Nat → List (Option α) → List (Option α) → List α
| 0, _, _ => []
| n + 1, subs, coms =>
    let ds := drain subs
    let dc := drain coms
    ds.1 ++ dc.1 ++ mergeSteps n ds.2 dc.2

/-- The items carried by a stream: its outputs with the empty-poll
sentinels removed. -/
def somes {α : Type} (l : List (Option α)) : List α := l.filterMap id

/-- The merged output across one transient failure and reconnection,
specialised to a single source and expressed over the source's timeline
(each item tagged with its creation time).  On every (re)connection,
lines 101-102 re-create the streams with `skip_existing=True`; by the
documented semantics of the PRAW stream generator this marks all items
existing at creation as seen and yields only items created from that
moment on.  So the session that starts at time `start` and is ended by a
transient failure at time `crash` yields the items created in
[start, crash), and the session re-created at time `reconnect` yields the
items created at or after `reconnect`; items created in the downtime
window [crash, reconnect) are yielded by neither.  (The merger preserves
each source's items, so one source suffices to observe the drop.) -/
def outputAcrossReconnect {α : Type} (start crash reconnect : Nat)
    (tl : List (Nat × α)) : List α :=
  (tl.filter (fun p => decide (start ≤ p.1 ∧ p.1 < crash))).map Prod.snd ++
  (tl.filter (fun p => decide (reconnect ≤ p.1))).map Prod.snd

/-- Observable events of one merge pass: an item yielded to the caller,
the fixed 0.5-second idle sleep of source line 120, or a backoff sleep of
the exception handler. -/
inductive GenEvent (α : Type) where
| yielded (it : α)
| idleSleep
| backoffSleep (secs : Nat)

/-- One full pass of the inner merge loop (source lines 108-120) with its
events made explicit: both drains are yielded and then `time.sleep(0.5)`
runs unconditionally — the source has no emptiness test guarding it. -/
def mergePassEv {α : Type} (subs coms : List (Option α)) :
    List (GenEvent α) × List (Option α) × List (Option α) :=
  let ds := drain subs
  let dc := drain coms
  ((ds.1 ++ dc.1).map GenEvent.yielded ++ [GenEvent.idleSleep], ds.2, dc.2)

/-- True exactly on the idle-sleep event. -/
def isIdleSleep {α : Type} : GenEvent α → Bool
| GenEvent.idleSleep => true
| _ => false

/-! ### The GUI worker (src/modules/gui.py lines 90-125) -/

/-- An item yielded by `stream_reddit_activity` as seen by the worker's
isinstance dispatch: a Submission, a Comment, or anything else (the
`else: continue` branch). -/
inductive RItem where
| post (channel title permalink : String)
| comment (channel body permalink : String)
| otherItem

/-- The messages the worker puts on `self.message_queue`
(gui.py lines 97, 99, 108-118, 123, 125).  Backoff and retry notices are
written to the logger only and never enter the queue, so they have no
constructor here. -/
inductive Msg where
| starting
| connectionOk
| postMsg (channel title url : String)
| commentMsg (channel excerpt url : String)
| errorMsg (e : String)
| stopping

/-- Fixed site base used when rendering URLs (gui.py lines 111, 117). -/
def reddit_base_url : String := "https://www.reddit.com"

/-- The isinstance dispatch of gui.py lines 107-120: a Submission becomes
a post message, a Comment becomes a comment message with the first 80
characters of its body, anything else is skipped. -/
def formatItem : RItem → Option Msg
| RItem.post ch t pl => some (Msg.postMsg ch t (reddit_base_url ++ pl))
| RItem.comment ch b pl =>
    some (Msg.commentMsg ch (b.take 80 ++ "...") (reddit_base_url ++ pl))
| RItem.otherItem => none

/-- One pull of the worker's `for item in stream_reddit_activity(...)`
loop: either the generator yields an item — `running` records the value of
`self.running` the worker reads right after — or the generator raises. -/
inductive Pull where
| item (running : Bool) (it : RItem)
| raiseExc (e : String)

/-- Messages produced by the worker's streaming loop (gui.py lines
103-123): each yielded item is dropped if `self.running` is observed
false (the `break`), otherwise formatted and queued; a raised exception
produces one error message and ends the loop. -/
def loopMsgs : List Pull → List Msg
| [] => []
| Pull.raiseExc e :: _ => [Msg.errorMsg e]
| Pull.item running it :: rest =>
    if running then
      match formatItem it with
      | some m => m :: loopMsgs rest
      | none => loopMsgs rest
    else []

/-- Embedding of `reddit_monitor_worker` (gui.py lines 90-125) as the
list of messages put on the queue: the start notice, then on successful
initialization the connection notice and the loop messages (on failed
initialization the error message), and — from the `finally` block — the
fixed stop notice, always, as the last message. -/
def reddit_monitor_worker (ini : Except String Unit) (pulls : List Pull) :
    List Msg :=
  (match ini with
   | Except.error e => [Msg.starting, Msg.errorMsg e]
   | Except.ok _ => Msg.starting :: Msg.connectionOk :: loopMsgs pulls)
  ++ [Msg.stopping]

/-- True exactly on the termination message. -/
def isStopping : Msg → Bool
| Msg.stopping => true
| _ => false

/-- True exactly on item (post or comment) messages. -/
def isItemMsg : Msg → Bool
| Msg.postMsg _ _ _ => true
| Msg.commentMsg _ _ _ => true
| _ => false

/-- The message a single pull contributes to the queue when the running
flag stays true. -/
def pullMsg : Pull → Option Msg
| Pull.item _ it => formatItem it
| Pull.raiseExc e => some (Msg.errorMsg e)

/-- Number of reads of `self.running` the worker performs while consuming
a pull list: exactly one per item pull it processes (gui.py line 104),
none for a raised exception, and none anywhere inside the generator. -/
def flagPolls : List Pull → Nat
| [] => 0
| Pull.raiseExc _ :: _ => 0
| Pull.item running _ :: rest => 1 + (if running then flagPolls rest else 0)

/-- The pulls the worker performs when the generator produces the given
events and the running flag holds the given value: only yielded items
reach the worker loop; sleeps happen inside the generator, invisible to
the worker and to the flag. -/
def pullsOfEvents (running : Bool) (evs : List (GenEvent RItem)) : List Pull :=
  evs.filterMap (fun ev =>
    match ev with
    | GenEvent.yielded it => some (Pull.item running it)
    | GenEvent.idleSleep => none
    | GenEvent.backoffSleep _ => none)

/-! ### The session controller (src/modules/gui.py lines 43-66) -/

/-- Observable state of the `App`: the running flag, the two buttons, the
number of worker threads spawned so far, and the log area contents. -/
structure AppState where
  running : Bool
  startEnabled : Bool
  stopEnabled : Bool
  workers : Nat
  log : List String

/-- State established by `App.__init__` (gui.py lines 14-41). -/
def initial_app : AppState :=
  { running := false, startEnabled := true, stopEnabled := false,
    workers := 0, log := [] }

/-- Embedding of `start_monitoring` (gui.py lines 43-55): sets the flag,
disables Start, enables Stop, and unconditionally spawns a new worker
thread — there is no check of `self.running`. -/
def start_monitoring (s : AppState) : AppState :=
  { s with running := true, startEnabled := false, stopEnabled := true,
           workers := s.workers + 1 }

/-- Embedding of `stop_monitoring` (gui.py lines 58-66): clears the flag,
restores the buttons, and appends one stop line directly to the log. -/
def stop_monitoring (s : AppState) : AppState :=
  { s with running := false, startEnabled := true, stopEnabled := false,
           log := s.log ++ ["Stopping Reddit monitor.\n"] }

/-! ### Theorems -/

/-- Claim C1 (code bug): no input ever makes `initialize_reddit` raise
the ValueError that its own docstring and the spec promise for missing
environment variables.  At the failing input (REDDIT_CLIENT_ID unset,
the other variables set) the PRAW constructor raises
MissingRequiredAttributeException before the verification statement is
ever reached — zero network calls — a generic exception the callers
handle as unexpected, not as the documented configuration error; the
spec-modelled validation would instead name the missing field. -/
theorem c1_no_config_error_path :
    (∀ env net f,
      (init_reddit env net).outcome ≠ Except.error (InitErr.valueError f)) ∧
    (∀ net,
      init_reddit
        { client_id := none, client_secret := some "s",
          user_agent := some "ua", username := some "u",
          password := some "p" } net =
        { outcome := Except.error (InitErr.missingAttr "client_id"),
          verifyCalls := 0 }) ∧
    spec_validate
      { client_id := none, client_secret := some "s",
        user_agent := some "ua", username := some "u",
        password := some "p" } = some "REDDIT_CLIENT_ID" := by
  refine ⟨?_, fun net => rfl, rfl⟩
  intro env net f
  simp only [init_reddit]
  split
  · simp
  · split
    · simp
    · cases net <;> simp

/-- Claim C2, counterexample: two consecutive transient failures sleep
[7, 7], not the [5, 7] the claim states: stream re-creation at lines
101-102 is lazy and cannot fail, so `backoff_seconds` is reset to 5 at
line 105 before every point where a transient error can strike, and each
failure sleeps min(120, int(5 * 1.5)) = 7. -/
theorem c2_counterexample :
    stream_run min_backoff_seconds
      (List.replicate 2 StreamErr.requestException) = [7, 7] ∧
    specSleepSeq 2 = [5, 7] ∧
    stream_run min_backoff_seconds
      (List.replicate 2 StreamErr.requestException) ≠ specSleepSeq 2 := by
  refine ⟨rfl, rfl, ?_⟩
  decide

/-- Claim C2 amended: for every number of consecutive transient failures
and whatever value `backoff_seconds` had entering the loop, each failure
sleeps exactly 7 seconds: the reset at line 105 runs before every
possible failure point (stream creation is lazy), so the growth stored at
line 143 is overwritten before it is ever read and the claimed
exponential schedule never materialises. -/
theorem c2_amended (b n : Nat) :
    stream_run b (List.replicate n StreamErr.requestException) =
      List.replicate n 7 := by
  induction n generalizing b with
  | zero => rfl
  | succ k ih =>
      simp only [List.replicate_succ, stream_run, handlerStep, classify,
        min_backoff_seconds, max_backoff_seconds]
      norm_num [Nat.min_def]
      exact ih _

/-- Claim C3, counterexample: with `backoff_seconds` at its maximum 120,
a successful reconnection resets the state to 5, yet the sleep on the
next transient failure is 7, not the 5 the claim states. -/
theorem c3_counterexample :
    stream_run 120 [StreamErr.requestException] = [7] ∧
    stream_run 120 [StreamErr.requestException] ≠ [5] := by
  refine ⟨rfl, ?_⟩
  decide

/-- Claim C3 amended: after any successful (re)connection the backoff
state is reset to 5 (line 105), so the sleep on the next transient
failure is exactly min(120, int(5 * 1.5)) = 7 seconds, regardless of how
deep the backoff state had grown before the reconnect. -/
theorem c3_amended (b : Nat) :
    stream_run b [StreamErr.requestException] = [7] := by
  simp [stream_run, handlerStep, classify, min_backoff_seconds,
    max_backoff_seconds]

/-- Claim C8: every exception reaching the handlers is classified into
exactly one of the five kinds, with the specified policy: KeyboardInterrupt
propagates (cancellation); Forbidden and NotFound (access) propagate with
no retry; OAuthException and InvalidToken (authorization) propagate with
no retry; RequestException, ResponseException and ServerError (transient
network) retry with the exponential-backoff step; any other exception
(unknown) retries after a fixed 15-second delay. -/
theorem c8_classification (b : Nat) :
    classify StreamErr.keyboardInterrupt = FailureClass.cancel ∧
    handlerStep StreamErr.keyboardInterrupt b = none ∧
    classify StreamErr.forbidden = FailureClass.access ∧
    classify StreamErr.notFound = FailureClass.access ∧
    handlerStep StreamErr.forbidden b = none ∧
    handlerStep StreamErr.notFound b = none ∧
    classify StreamErr.oauthException = FailureClass.auth ∧
    classify StreamErr.invalidToken = FailureClass.auth ∧
    handlerStep StreamErr.oauthException b = none ∧
    handlerStep StreamErr.invalidToken b = none ∧
    classify StreamErr.requestException = FailureClass.transient ∧
    classify StreamErr.responseException = FailureClass.transient ∧
    classify StreamErr.serverError = FailureClass.transient ∧
    handlerStep StreamErr.requestException b =
      some (min 120 (3 * b / 2), min 120 (min 120 (3 * b / 2) * 2)) ∧
    handlerStep StreamErr.responseException b =
      some (min 120 (3 * b / 2), min 120 (min 120 (3 * b / 2) * 2)) ∧
    handlerStep StreamErr.serverError b =
      some (min 120 (3 * b / 2), min 120 (min 120 (3 * b / 2) * 2)) ∧
    (∀ s, classify (StreamErr.other s) = FailureClass.unknown) ∧
    (∀ s, handlerStep (StreamErr.other s) b = some (15, b)) := by
  simp [classify, handlerStep, max_backoff_seconds]

/-- Claim C9: the handler for an uncategorized exception sleeps a fixed
15 seconds, reconnects, and leaves the backoff state unchanged: for every
prior value of backoff_seconds, the state after the handler is that same
value. -/
theorem c9_unknown_preserves_backoff (b : Nat) (s : String) :
    handlerStep (StreamErr.other s) b = some (15, b) := by
  simp [handlerStep, classify]

/-- Claim C10, counterexample: calling start_monitoring twice from the
initial state — the first call leaves the session running — spawns a
second worker thread, so start while running is neither a no-op nor an
error. -/
theorem c10_counterexample :
    (start_monitoring initial_app).running = true ∧
    (start_monitoring (start_monitoring initial_app)).workers = 2 := by
  exact ⟨rfl, rfl⟩

/-- Claim C10 amended: start_monitoring unconditionally spawns one new
worker thread on every call (it never checks the running flag), so only
the disabling of the Start button prevents a second worker; and
stop_monitoring while already stopped repeats the same state except for
appending one more stop line to the log. -/
theorem c10_amended (s : AppState) :
    (start_monitoring s).workers = s.workers + 1 ∧
    (start_monitoring s).startEnabled = false ∧
    (start_monitoring s).running = true ∧
    (stop_monitoring (stop_monitoring s)).running =
      (stop_monitoring s).running ∧
    (stop_monitoring (stop_monitoring s)).startEnabled =
      (stop_monitoring s).startEnabled ∧
    (stop_monitoring (stop_monitoring s)).stopEnabled =
      (stop_monitoring s).stopEnabled ∧
    (stop_monitoring (stop_monitoring s)).workers =
      (stop_monitoring s).workers ∧
    (stop_monitoring s).log = s.log ++ ["Stopping Reddit monitor.\n"] := by
  simp [start_monitoring, stop_monitoring]

/-- The streaming loop never queues the termination message: that message
comes only from the `finally` block. -/
theorem loopMsgs_no_stopping :
    ∀ pulls : List Pull, ∀ m ∈ loopMsgs pulls, isStopping m = false
| [] => by intro m hm; simp [loopMsgs] at hm
| Pull.raiseExc e :: rest => by
    intro m hm
    simp [loopMsgs] at hm
    subst hm
    rfl
| Pull.item true it :: rest => by
    intro m hm
    cases it with
    | post ch t pl =>
        simp [loopMsgs, formatItem] at hm
        rcases hm with h | h
        · subst h; rfl
        · exact loopMsgs_no_stopping rest m h
    | comment ch b pl =>
        simp [loopMsgs, formatItem] at hm
        rcases hm with h | h
        · subst h; rfl
        · exact loopMsgs_no_stopping rest m h
    | otherItem =>
        simp [loopMsgs, formatItem] at hm
        exact loopMsgs_no_stopping rest m hm
| Pull.item false it :: rest => by
    intro m hm
    simp [loopMsgs] at hm

/-- Count form of `loopMsgs_no_stopping`. -/
theorem countP_stopping_loopMsgs (pulls : List Pull) :
    (loopMsgs pulls).countP isStopping = 0 := by
  simp only [List.countP_eq_zero]
  intro m hm
  simp [loopMsgs_no_stopping pulls m hm]

/-- Claim C4, counterexample: the termination message queued after a
cooperative stop is identical to the one queued after a fatal error — it
is the fixed text of the `finally` block in both runs — so its payload
cannot distinguish which of the exit cases occurred. -/
theorem c4_counterexample :
    (reddit_monitor_worker (Except.ok ())
        [Pull.item false (RItem.post "r" "t" "/p")]).getLast? =
      (reddit_monitor_worker (Except.ok ())
        [Pull.raiseExc "received 403 HTTP response"]).getLast? ∧
    (reddit_monitor_worker (Except.ok ())
        [Pull.item false (RItem.post "r" "t" "/p")]).getLast? =
      some Msg.stopping := ⟨rfl, rfl⟩

/-- Claim C4 amended: on every exit of the worker exactly one termination
message is queued and it is the last message, but its payload is the same
fixed stop notice in all three cases; the fatal case is distinguished
only by a preceding error message.  In the AccessError-on-first-connect
scenario the queue holds the start notice, the connection notice, one
error message, and the single termination message — zero item messages
and zero backoff notices. -/
theorem c4_amended :
    (∀ ini pulls,
      (reddit_monitor_worker ini pulls).countP isStopping = 1 ∧
      (reddit_monitor_worker ini pulls).getLast? = some Msg.stopping) ∧
    reddit_monitor_worker (Except.ok ())
        [Pull.raiseExc "received 403 HTTP response"] =
      [Msg.starting, Msg.connectionOk,
       Msg.errorMsg "received 403 HTTP response", Msg.stopping] ∧
    (reddit_monitor_worker (Except.ok ())
        [Pull.raiseExc "received 403 HTTP response"]).countP isItemMsg = 0 := by
  refine ⟨fun ini pulls => ⟨?_, ?_⟩, rfl, rfl⟩
  · cases ini with
    | error e =>
        simp [reddit_monitor_worker, List.countP_cons, isStopping]
    | ok u =>
        simp [reddit_monitor_worker, List.countP_append, List.countP_cons,
          isStopping, countP_stopping_loopMsgs pulls]
  · simp only [reddit_monitor_worker]
    exact List.getLast?_concat _

/-- Claim C5, counterexample: a merge pass that yields an item still ends
with the 0.5-second idle sleep — the source sleeps unconditionally at the
end of every pass, with no emptiness test. -/
theorem c5_counterexample :
    (mergePassEv [some (1 : Nat), none] [none]).1 =
      [GenEvent.yielded 1, GenEvent.idleSleep] ∧
    (mergePassEv [some (1 : Nat), none] [none]).1.countP isIdleSleep = 1 :=
  ⟨rfl, rfl⟩

/-- Claim C5 amended: each pass drains the submissions stream until its
empty sentinel, then the comments stream, yielding each item, and then
performs the fixed 0.5-second idle sleep unconditionally — exactly one
idle sleep per pass, as the last event, whether or not any item was
yielded. -/
theorem c5_amended {α : Type} (subs coms : List (Option α)) :
    (mergePassEv subs coms).1.countP isIdleSleep = 1 ∧
    (mergePassEv subs coms).1.getLast? = some GenEvent.idleSleep := by
  constructor
  · simp only [mergePassEv, List.countP_append]
    have h : (((drain subs).1 ++ (drain coms).1).map GenEvent.yielded).countP
        isIdleSleep = 0 := by
      simp only [List.countP_eq_zero]
      intro a ha
      simp only [List.mem_map] at ha
      obtain ⟨x, hx, rfl⟩ := ha
      simp [isIdleSleep]
    simp [h, isIdleSleep]
  · simp only [mergePassEv]
    exact List.getLast?_concat _

/-- Draining splits the items of a stream: the items of `l` are the
drained items followed by the items of the remainder. -/
theorem drain_somes {α : Type} (l : List (Option α)) :
    somes l = (drain l).1 ++ somes (drain l).2 := by
  induction l with
  | nil => rfl
  | cons hd tl ih =>
      cases hd with
      | none => simp [drain, somes]
      | some a =>
          simp only [drain, somes, List.filterMap_cons, id] at ih ⊢
          simp [ih]

/-- The remainder of a drain is no longer than the stream. -/
theorem drain_length_le {α : Type} (l : List (Option α)) :
    (drain l).2.length ≤ l.length := by
  induction l with
  | nil => simp [drain]
  | cons hd tl ih =>
      cases hd with
      | none => simp [drain]
      | some a =>
          simp only [drain, List.length_cons]
          exact Nat.le_succ_of_le ih

/-- Draining a nonempty stream strictly shortens it. -/
theorem drain_length_lt {α : Type} (l : List (Option α)) (h : l ≠ []) :
    (drain l).2.length < l.length := by
  cases l with
  | nil => exact absurd rfl h
  | cons hd tl =>
      cases hd with
      | none => simp [drain, Nat.lt_succ_self]
      | some a =>
          simp only [drain, List.length_cons]
          exact Nat.lt_succ_of_le (drain_length_le tl)

/-- Within one uninterrupted run of the inner merge loop: over enough
passes, every item carried by either stream appears in the merged
output, and the relative order of each stream's own items is preserved
(each stream's item list is a sublist of the output). -/
theorem merge_session_complete {α : Type} :
    ∀ (n : Nat) (subs coms : List (Option α)),
      subs.length ≤ n → coms.length ≤ n →
      (somes subs).Sublist (mergeSteps n subs coms) ∧
      (somes coms).Sublist (mergeSteps n subs coms) ∧
      (∀ a ∈ somes subs, a ∈ mergeSteps n subs coms) ∧
      (∀ a ∈ somes coms, a ∈ mergeSteps n subs coms) := by
  intro n
  induction n with
  | zero =>
      intro subs coms hs hc
      have hs0 : subs = [] := List.eq_nil_of_length_eq_zero (Nat.le_zero.mp hs)
      have hc0 : coms = [] := List.eq_nil_of_length_eq_zero (Nat.le_zero.mp hc)
      subst hs0; subst hc0
      simp [mergeSteps, somes]
  | succ k ih =>
      intro subs coms hs hc
      have hs2 : (drain subs).2.length ≤ k := by
        cases hsubs : subs with
        | nil => simp [drain]
        | cons hd tl =>
            have := drain_length_lt (hd :: tl) (by simp)
            rw [hsubs] at hs
            exact Nat.lt_succ_iff.mp (Nat.lt_of_lt_of_le this hs)
      have hc2 : (drain coms).2.length ≤ k := by
        cases hcoms : coms with
        | nil => simp [drain]
        | cons hd tl =>
            have := drain_length_lt (hd :: tl) (by simp)
            rw [hcoms] at hc
            exact Nat.lt_succ_iff.mp (Nat.lt_of_lt_of_le this hc)
      obtain ⟨ihs, ihc, _, _⟩ := ih (drain subs).2 (drain coms).2 hs2 hc2
      have hsub1 : (somes subs).Sublist (mergeSteps (k + 1) subs coms) := by
        rw [drain_somes subs]
        simp only [mergeSteps, List.append_assoc]
        exact List.Sublist.append (List.Sublist.refl _)
          (List.sublist_append_of_sublist_right ihs)
      have hsub2 : (somes coms).Sublist (mergeSteps (k + 1) subs coms) := by
        rw [drain_somes coms]
        simp only [mergeSteps, List.append_assoc]
        exact List.sublist_append_of_sublist_right
          (List.Sublist.append (List.Sublist.refl _) ihc)
      exact ⟨hsub1, hsub2, fun a ha => hsub1.subset ha,
        fun a ha => hsub2.subset ha⟩

/-- Claim C6, counterexample: the item created at time 5 — during the
downtime window between the transient failure at time 4 and the
re-creation of the streams at time 8 — is on the source's timeline yet
appears in no session's output, because the re-created stream skips
items already existing at its creation (`skip_existing=True`,
lines 101-102).  So not every item made available on the sources
eventually appears in the merged output. -/
theorem c6_counterexample :
    (5, 2) ∈ ([(0, 1), (5, 2), (10, 3)] : List (Nat × Nat)) ∧
    outputAcrossReconnect 0 4 8 ([(0, 1), (5, 2), (10, 3)] : List (Nat × Nat)) =
      [1, 3] ∧
    2 ∉ outputAcrossReconnect 0 4 8 ([(0, 1), (5, 2), (10, 3)] : List (Nat × Nat)) := by
  decide

/-- Claim C6 amended: while a streaming session is live, every item made
available on either source appears in the merged output and the relative
order of each source's own items is preserved; but an item that becomes
available during a backoff or reconnection period — created at or after
the crash and before the streams are re-created — never appears in any
session's output, because lines 101-102 re-create the streams with
`skip_existing=True`. -/
theorem c6_amended :
    (∀ (α : Type) (n : Nat) (subs coms : List (Option α)),
      subs.length ≤ n → coms.length ≤ n →
      (somes subs).Sublist (mergeSteps n subs coms) ∧
      (somes coms).Sublist (mergeSteps n subs coms) ∧
      (∀ a ∈ somes subs, a ∈ mergeSteps n subs coms) ∧
      (∀ a ∈ somes coms, a ∈ mergeSteps n subs coms)) ∧
    (∀ (α : Type) (tl : List (Nat × α)) (start crash reconnect : Nat) (x : α),
      (∀ p ∈ tl, p.2 = x → crash ≤ p.1 ∧ p.1 < reconnect) →
      x ∉ outputAcrossReconnect start crash reconnect tl) := by
  constructor
  · intro α n subs coms hs hc
    exact merge_session_complete n subs coms hs hc
  · intro α tl start crash reconnect x hx hmem
    simp only [outputAcrossReconnect, List.mem_append, List.mem_map] at hmem
    rcases hmem with ⟨p, hp, hpx⟩ | ⟨p, hp, hpx⟩
    · rw [List.mem_filter] at hp
      have h1 := hx p hp.1 hpx
      have h2 := of_decide_eq_true hp.2
      exact absurd h1.1 (Nat.not_le.mpr h2.2)
    · rw [List.mem_filter] at hp
      have h1 := hx p hp.1 hpx
      have h2 := of_decide_eq_true hp.2
      exact absurd h2 (Nat.not_le.mpr h1.2)

/-- Witness for C6 at concrete inputs: a concrete interleaving for the
live-session part, and a concrete timeline with one item created inside
the downtime window for the drop part. -/
theorem c6_witness :
    (([some 1, none, some 2] : List (Option Nat)).length ≤ 3 ∧
      ([some 3, none] : List (Option Nat)).length ≤ 3 ∧
      (∀ p ∈ ([(5, 2)] : List (Nat × Nat)), p.2 = 2 → 4 ≤ p.1 ∧ p.1 < 8)) ∧
    ((somes ([some 1, none, some 2] : List (Option Nat))).Sublist
        (mergeSteps 3 [some 1, none, some 2] [some 3, none]) ∧
      (somes ([some 3, none] : List (Option Nat))).Sublist
        (mergeSteps 3 [some 1, none, some 2] [some 3, none]) ∧
      (∀ a ∈ somes ([some 1, none, some 2] : List (Option Nat)),
        a ∈ mergeSteps 3 [some 1, none, some 2] [some 3, none]) ∧
      (∀ a ∈ somes ([some 3, none] : List (Option Nat)),
        a ∈ mergeSteps 3 [some 1, none, some 2] [some 3, none])) ∧
    2 ∉ outputAcrossReconnect 0 4 8 ([(5, 2)] : List (Nat × Nat)) :=
  ⟨⟨by decide, by decide, by decide⟩,
    c6_amended.1 Nat 3 [some 1, none, some 2] [some 3, none]
      (by decide) (by decide),
    c6_amended.2 Nat [(5, 2)] 0 4 8 2 (by decide)⟩

/-- When the running flag has stayed true, the streaming loop queues
exactly the formatted messages of the pulls before the first flag-false
observation and nothing after it. -/
theorem loopMsgs_true_prefix :
    ∀ (pre post : List Pull) (it : RItem),
      (∀ p ∈ pre, ∃ i2, p = Pull.item true i2) →
      loopMsgs (pre ++ Pull.item false it :: post) = pre.filterMap pullMsg := by
  intro pre
  induction pre with
  | nil =>
      intro post it h
      simp [loopMsgs]
  | cons p tl ih =>
      intro post it h
      obtain ⟨i2, rfl⟩ := h p (by simp)
      have htl := ih post it (fun q hq => h q (by simp [hq]))
      cases hf : formatItem i2 with
      | none =>
          simp [loopMsgs, List.filterMap_cons, pullMsg, hf, htl]
      | some m =>
          simp [loopMsgs, List.filterMap_cons, pullMsg, hf, htl]

/-- Claim C7, counterexample: a merge pass in which both streams report
empty yields no item, so the worker — whose only reads of the running
flag happen when an item is yielded — polls the flag zero times during
that pass, not once; likewise zero times around a backoff sleep.  The
flag is polled once per delivered item, not once per merge pass. -/
theorem c7_counterexample :
    (mergePassEv ([none] : List (Option RItem)) [none]).1 =
      [GenEvent.idleSleep] ∧
    flagPolls (pullsOfEvents true
      (mergePassEv ([none] : List (Option RItem)) [none]).1) = 0 ∧
    flagPolls (pullsOfEvents true [GenEvent.backoffSleep 7]) = 0 :=
  ⟨rfl, rfl, rfl⟩

/-- Claim C7 amended: once the worker observes the running flag cleared
it delivers no further item message — the queue holds exactly the
messages of the pulls before the observation — and exactly one
termination message follows; the flag is however polled once per yielded
item (gui.py line 104), not once per merge pass, and never during idle
passes or backoff sleeps. -/
theorem c7_amended (pre post : List Pull) (it : RItem)
    (hpre : ∀ p ∈ pre, ∃ i2, p = Pull.item true i2) :
    reddit_monitor_worker (Except.ok ()) (pre ++ Pull.item false it :: post) =
      Msg.starting :: Msg.connectionOk ::
        (pre.filterMap pullMsg ++ [Msg.stopping]) ∧
    (reddit_monitor_worker (Except.ok ())
      (pre ++ Pull.item false it :: post)).countP isStopping = 1 := by
  have h := loopMsgs_true_prefix pre post it hpre
  constructor
  · simp [reddit_monitor_worker, h]
  · simp [reddit_monitor_worker, List.countP_append, List.countP_cons,
      isStopping, countP_stopping_loopMsgs]

/-- Witness for C7 at a concrete run: one item delivered while running,
then the flag observed cleared, with one more item available after. -/
theorem c7_witness :
    (∀ p ∈ [Pull.item true (RItem.post "r" "t" "/p")],
      ∃ i2, p = Pull.item true i2) ∧
    (reddit_monitor_worker (Except.ok ())
        ([Pull.item true (RItem.post "r" "t" "/p")] ++
          Pull.item false RItem.otherItem ::
            [Pull.item true (RItem.comment "c" "b" "/q")]) =
      Msg.starting :: Msg.connectionOk ::
        ([Pull.item true (RItem.post "r" "t" "/p")].filterMap pullMsg ++
          [Msg.stopping]) ∧
     (reddit_monitor_worker (Except.ok ())
        ([Pull.item true (RItem.post "r" "t" "/p")] ++
          Pull.item false RItem.otherItem ::
            [Pull.item true (RItem.comment "c" "b" "/q")])).countP
        isStopping = 1) := by
  have hpre : ∀ p ∈ [Pull.item true (RItem.post "r" "t" "/p")],
      ∃ i2, p = Pull.item true i2 := by
    intro p hp
    simp only [List.mem_singleton] at hp
    exact ⟨RItem.post "r" "t" "/p", hp⟩
  exact ⟨hpre, c7_amended _ _ _ hpre⟩

end RedditListener
